import Mathlib

/-!
Shallow embedding of the element-action executor (`findAndPerformAction`,
`generateActionByType`, `withRetry`, `performActionByConfig`,
`performActionsByConfigs`) and the `VisualRecorder` from the rap-demo
repository.  The host DOM is modelled as an oracle (`Host`): `query`
denotes `document.querySelector`, `apply` denotes invoking the generated
closure on the found element, whose outcome (normal return or thrown
fault) the host decides.  Executions return their boolean result paired
with a trace of observable events, so that invocation counts of the
primitive layer, of the `onError` observer, of `console.error`, of
`wait`, and of the retry loop's attempts can be stated and proved.
-/

/-- Outcome of applying a primitive operation on an element: the closure
either returns normally or throws a fault (carried as a message). -/
inductive PrimResult where
  | ok : PrimResult
  | fault : String → PrimResult
deriving DecidableEq, Repr

/-- Denotation of the closures produced by `generateActionByType`:
each closure's behaviour is fully determined by its case and, for the
input case, the captured `value`. -/
inductive ElemAction where
  | click : ElemAction
  | input : String → ElemAction
  | focus : ElemAction
  | readText : ElemAction
deriving DecidableEq, Repr

/-- The `ElementActionType` enumeration object of the source. -/
structure ElementActionTypeObj where
  CLICK : String
  INPUT : String
  FOCUS : String
  READ_TEXT : String

/-- `const ElementActionType = { CLICK: "click", INPUT: "input",
FOCUS: "focus", READ_TEXT: "readText" }`. -/
def ElementActionType : ElementActionTypeObj :=
  { CLICK := "click", INPUT := "input", FOCUS := "focus", READ_TEXT := "readText" }

/-- `generateActionByType(type, value = "")`: switch over the type tag;
the four known cases yield the corresponding closure, the default case
throws (modelled as `Except.error` carrying the thrown message). -/
def generateActionByType (ty : String) (value : String) : Except String ElemAction :=
  if ty = ElementActionType.CLICK then .ok .click
  else if ty = ElementActionType.INPUT then .ok (.input value)
  else if ty = ElementActionType.FOCUS then .ok .focus
  else if ty = ElementActionType.READ_TEXT then .ok .readText
  else .error ("不支持的操作类型: " ++ ty)

/-- Observable events of an execution:
`delay` = a `wait(ms)` call, `attempt` = one iteration of `withRetry`'s
loop invoking its thunk, `query` = a `document.querySelector` call and
whether it found an element, `prim` = invocation of a primitive closure
on the found element together with its outcome, `consoleError` = the
diagnostic `console.error` in `findAndPerformAction`'s catch,
`onError` = an invocation of the optional observer callback. -/
inductive Ev where
  | delay : Int → Ev
  | attempt : Nat → Ev
  | query : String → Bool → Ev
  | prim : ElemAction → PrimResult → Ev
  | consoleError : String → Ev
  | onError : String → Ev
deriving DecidableEq, Repr

/-- Host-environment oracle: resolves selectors to element handles (of
an abstract type `α`) and decides the outcome of applying a primitive
closure to a handle. -/
structure Host (α : Type) where
  query : String → Option α
  apply : α → ElemAction → PrimResult

/-- `findAndPerformAction(selector, action)`: query the document; if an
element is found, invoke the action on it inside the try, returning
`true` on normal return; a thrown fault is caught, reported via
`console.error`, and folded to `false`; a missing element yields
`false`. -/
def findAndPerformAction {α : Type} (h : Host α) (selector : String)
    (action : ElemAction) : Bool × List Ev :=
  match h.query selector with
  | some el =>
      match h.apply el action with
      | .ok => (true, [.query selector true, .prim action .ok])
      | .fault e => (false, [.query selector true, .prim action (.fault e), .consoleError e])
  | none => (false, [.query selector false])

/-- Result of one invocation of `withRetry`'s thunk: the promise either
resolves with a boolean or rejects with a thrown error. -/
inductive ThunkOutcome where
  | ret : Bool → ThunkOutcome
  | thrown : String → ThunkOutcome
deriving DecidableEq, Repr

/-- `findAndPerformActionByType(selector, type, value)`: build the
closure with `generateActionByType` (a throw here escapes as a rejected
promise, before any query), then run `findAndPerformAction`. -/
def findAndPerformActionByType {α : Type} (h : Host α) (selector ty value : String) :
    ThunkOutcome × List Ev :=
  match generateActionByType ty value with
  | .error e => (.thrown e, [])
  | .ok action =>
      let r := findAndPerformAction h selector action
      (.ret r.1, r.2)

/-- The loop of `withRetry`, with `n` iterations remaining and `i` the
current loop index.  Each iteration invokes the thunk (at its attempt
index, since the host may behave differently per attempt): a `true`
return short-circuits; a `false` return proceeds; a thrown error is
caught, handed to `onError` when an observer is present, and the loop
proceeds.  Exhaustion yields `false`. -/
def withRetryFrom (thunk : Nat → ThunkOutcome × List Ev) (hasOnError : Bool) :
    Nat → Nat → Bool × List Ev
  | _, 0 => (false, [])
  | i, n + 1 =>
      match thunk i with
      | (.ret true, tr) => (true, .attempt i :: tr)
      | (.ret false, tr) =>
          let rest := withRetryFrom thunk hasOnError (i + 1) n
          (rest.1, (.attempt i :: tr) ++ rest.2)
      | (.thrown e, tr) =>
          let rest := withRetryFrom thunk hasOnError (i + 1) n
          (rest.1, (.attempt i :: tr) ++ (if hasOnError then [Ev.onError e] else []) ++ rest.2)

/-- `withRetry(action, retries, onError)`: `for (let i = 0; i <= retries; i++)`
performs `retries + 1` iterations when `retries ≥ 0` and none when
`retries` is negative. -/
def withRetry (thunk : Nat → ThunkOutcome × List Ev) (retries : Int)
    (hasOnError : Bool) : Bool × List Ev :=
  withRetryFrom thunk hasOnError 0 (if retries < 0 then 0 else retries.toNat + 1)

/-- The `ElementConfig` descriptor.  Optional fields are `Option`s so
that a missing field is distinguishable from an explicitly supplied one;
`onError` records whether an observer callback is provided (the observer
is side-effecting only, so only its presence matters to the engine). -/
structure ElementConfig where
  selector : String
  type : String
  value : Option String := none
  waitBefore : Option Int := none
  retries : Option Int := none
  onError : Bool := false
deriving DecidableEq, Repr

/-- `performActionByConfig(config)`: destructure with defaults
(`value = ""`, `waitBefore = 0`, `retries = 0`), wait once up front when
`waitBefore > 0`, then run the typed action under `withRetry`. -/
def performActionByConfig {α : Type} (h : Nat → Host α) (config : ElementConfig) :
    Bool × List Ev :=
  let value := config.value.getD ""
  let waitBefore := config.waitBefore.getD 0
  let retries := config.retries.getD 0
  let delayTr : List Ev := if 0 < waitBefore then [.delay waitBefore] else []
  let r := withRetry (fun i => findAndPerformActionByType (h i) config.selector config.type value)
      retries config.onError
  (r.1, delayTr ++ r.2)

/-- `performActionsByConfigs(configs)`:
`Promise.all(configs.map(performActionByConfig))` — the resolved array
of booleans, index-aligned with the input. -/
def performActionsByConfigs {α : Type} (h : Nat → Host α) (configs : List ElementConfig) :
    List Bool :=
  configs.map (fun c => (performActionByConfig h c).1)

/-- Count the events of a trace satisfying `p`. -/
def countEv (p : Ev → Bool) (tr : List Ev) : Nat :=
  tr.countP p

def isPrim : Ev → Bool
  | .prim _ _ => true
  | _ => false

def isOnError : Ev → Bool
  | .onError _ => true
  | _ => false

def isAttempt : Ev → Bool
  | .attempt _ => true
  | _ => false

def isDelay : Ev → Bool
  | .delay _ => true
  | _ => false

def isQuery : Ev → Bool
  | .query _ _ => true
  | _ => false

def isConsoleError : Ev → Bool
  | .consoleError _ => true
  | _ => false

/-- A DOM element as seen by the recorder's handlers: its `id` attribute
(the empty string when absent, as in the DOM) and its current `value`. -/
structure RecElem where
  id : String
  value : String
deriving DecidableEq, Repr

/-- A page event observed by the recorder after `startRecording`:
a click, input or focus event with its target element. -/
inductive RecEvent where
  | click : RecElem → RecEvent
  | input : RecElem → RecEvent
  | focus : RecElem → RecEvent
deriving DecidableEq, Repr

def RecEvent.isClick : RecEvent → Bool
  | .click _ => true
  | _ => false

/-- The mutable state of a `VisualRecorder` instance: the list of
recorded configs and the first-click flag. -/
structure VisualRecorder where
  recordedConfig : List ElementConfig
  isFirstClick : Bool
deriving DecidableEq, Repr

/-- The constructor: `recordedConfig = []`, `isFirstClick = true`. -/
def VisualRecorder.init : VisualRecorder :=
  { recordedConfig := [], isFirstClick := true }

/-- `_getElementSelector(element)`: `#id` when the element's `id` is
truthy (a non-empty string), `""` otherwise. -/
def getElementSelector (el : RecElem) : String :=
  if el.id ≠ "" then "#" ++ el.id else ""

/-- `_handleClick(event)`: the first click only clears the flag and
records nothing; later clicks append a CLICK config with the hardcoded
`waitBefore: 200`, `retries: 2` and an `onError` handler. -/
def VisualRecorder.handleClick (r : VisualRecorder) (el : RecElem) : VisualRecorder :=
  if r.isFirstClick then { r with isFirstClick := false }
  else
    { r with recordedConfig := r.recordedConfig ++
        [{ selector := getElementSelector el, type := ElementActionType.CLICK,
           waitBefore := some 200, retries := some 2, onError := true }] }

/-- `_handleInput(event)`: always appends an INPUT config carrying the
target's current value, with the hardcoded `waitBefore: 200`,
`retries: 2` and an `onError` handler. -/
def VisualRecorder.handleInput (r : VisualRecorder) (el : RecElem) : VisualRecorder :=
  { r with recordedConfig := r.recordedConfig ++
      [{ selector := getElementSelector el, type := ElementActionType.INPUT,
         value := some el.value, waitBefore := some 200, retries := some 2,
         onError := true }] }

/-- `_handleFocus(event)`: always appends a FOCUS config with the
hardcoded `waitBefore: 200`, `retries: 2` and an `onError` handler. -/
def VisualRecorder.handleFocus (r : VisualRecorder) (el : RecElem) : VisualRecorder :=
  { r with recordedConfig := r.recordedConfig ++
      [{ selector := getElementSelector el, type := ElementActionType.FOCUS,
         waitBefore := some 200, retries := some 2, onError := true }] }

/-- Dispatch one observed event to its handler. -/
def VisualRecorder.step (r : VisualRecorder) : RecEvent → VisualRecorder
  | .click el => r.handleClick el
  | .input el => r.handleInput el
  | .focus el => r.handleFocus el

/-- Process a sequence of observed events in order. -/
def VisualRecorder.recordEvents (r : VisualRecorder) (es : List RecEvent) : VisualRecorder :=
  es.foldl VisualRecorder.step r

theorem countEv_nil (p : Ev → Bool) : countEv p [] = 0 := rfl

theorem countEv_append (p : Ev → Bool) (a b : List Ev) :
    countEv p (a ++ b) = countEv p a + countEv p b :=
  List.countP_append _ _ _

theorem countEv_cons (p : Ev → Bool) (e : Ev) (tr : List Ev) :
    countEv p (e :: tr) = countEv p tr + (if p e then 1 else 0) :=
  List.countP_cons _ _ _

theorem findAndPerformActionByType_thrown {α : Type} (h : Host α) (sel ty val e : String)
    (hty : generateActionByType ty val = .error e) :
    findAndPerformActionByType h sel ty val = (.thrown e, []) := by
  simp [findAndPerformActionByType, hty]

theorem findAndPerformActionByType_notFound {α : Type} (h : Host α) (sel ty val : String)
    (act : ElemAction) (hty : generateActionByType ty val = .ok act)
    (hq : h.query sel = none) :
    findAndPerformActionByType h sel ty val = (.ret false, [.query sel false]) := by
  simp [findAndPerformActionByType, hty, findAndPerformAction, hq]

theorem findAndPerformActionByType_fault {α : Type} (h : Host α) (sel ty val : String)
    (act : ElemAction) (el : α) (e : String) (hty : generateActionByType ty val = .ok act)
    (hq : h.query sel = some el) (ha : h.apply el act = .fault e) :
    findAndPerformActionByType h sel ty val =
      (.ret false, [.query sel true, .prim act (.fault e), .consoleError e]) := by
  simp [findAndPerformActionByType, hty, findAndPerformAction, hq, ha]

theorem findAndPerformActionByType_ok {α : Type} (h : Host α) (sel ty val : String)
    (act : ElemAction) (el : α) (hty : generateActionByType ty val = .ok act)
    (hq : h.query sel = some el) (ha : h.apply el act = .ok) :
    findAndPerformActionByType h sel ty val =
      (.ret true, [.query sel true, .prim act .ok]) := by
  simp [findAndPerformActionByType, hty, findAndPerformAction, hq, ha]

/-- When every attempt's thunk resolves with `false` and each attempt's
trace has the given per-attempt event counts, the whole retry loop of
`n` iterations returns `false` with the counts scaled by `n`, one
`attempt` event per iteration, and no `onError` invocation. -/
theorem withRetryFrom_allRetFalse (thunk : Nat → ThunkOutcome × List Ev) (hoe : Bool)
    (cp cc cq : Nat)
    (hth : ∀ i, (thunk i).1 = .ret false ∧
      countEv isPrim (thunk i).2 = cp ∧
      countEv isOnError (thunk i).2 = 0 ∧
      countEv isConsoleError (thunk i).2 = cc ∧
      countEv isQuery (thunk i).2 = cq ∧
      countEv isAttempt (thunk i).2 = 0 ∧
      countEv isDelay (thunk i).2 = 0) :
    ∀ start n,
      (withRetryFrom thunk hoe start n).1 = false ∧
      countEv isPrim (withRetryFrom thunk hoe start n).2 = n * cp ∧
      countEv isOnError (withRetryFrom thunk hoe start n).2 = 0 ∧
      countEv isConsoleError (withRetryFrom thunk hoe start n).2 = n * cc ∧
      countEv isQuery (withRetryFrom thunk hoe start n).2 = n * cq ∧
      countEv isAttempt (withRetryFrom thunk hoe start n).2 = n ∧
      countEv isDelay (withRetryFrom thunk hoe start n).2 = 0 := by
  intro start n
  induction n generalizing start with
  | zero => simp [withRetryFrom, countEv_nil]
  | succ m ih =>
      obtain ⟨h1, h2, h3, h4, h5, h6, h7⟩ := hth start
      rcases hs : thunk start with ⟨b, tr⟩
      rw [hs] at h1 h2 h3 h4 h5 h6 h7
      simp only at h1 h2 h3 h4 h5 h6 h7
      subst h1
      obtain ⟨g1, g2, g3, g4, g5, g6, g7⟩ := ih (start + 1)
      simp only [withRetryFrom, hs]
      refine ⟨g1, ?_, ?_, ?_, ?_, ?_, ?_⟩ <;>
        simp [countEv_append, countEv_cons, h2, h3, h4, h5, h6, h7, g2, g3, g4, g5, g6, g7,
          isPrim, isOnError, isConsoleError, isQuery, isAttempt, isDelay, Nat.succ_mul,
          Nat.add_comm]

/-- When every attempt's thunk rejects (throws) with an empty trace, the
retry loop of `n` iterations returns `false`, performs `n` attempts,
invokes `onError` once per attempt exactly when an observer is present,
and the trace holds no primitive, query or delay event. -/
theorem withRetryFrom_allThrown (thunk : Nat → ThunkOutcome × List Ev) (hoe : Bool)
    (hth : ∀ i, ∃ e, thunk i = (.thrown e, [])) :
    ∀ start n,
      (withRetryFrom thunk hoe start n).1 = false ∧
      countEv isPrim (withRetryFrom thunk hoe start n).2 = 0 ∧
      countEv isQuery (withRetryFrom thunk hoe start n).2 = 0 ∧
      countEv isConsoleError (withRetryFrom thunk hoe start n).2 = 0 ∧
      countEv isAttempt (withRetryFrom thunk hoe start n).2 = n ∧
      countEv isOnError (withRetryFrom thunk hoe start n).2 = (if hoe then n else 0) ∧
      countEv isDelay (withRetryFrom thunk hoe start n).2 = 0 := by
  intro start n
  induction n generalizing start with
  | zero => simp [withRetryFrom, countEv_nil]
  | succ m ih =>
      obtain ⟨e, he⟩ := hth start
      obtain ⟨g1, g2, g3, g4, g5, g6, g7⟩ := ih (start + 1)
      simp only [withRetryFrom, he]
      refine ⟨g1, ?_, ?_, ?_, ?_, ?_, ?_⟩ <;>
        cases hoe <;>
          simp_all [countEv_append, countEv_cons, countEv_nil,
            isPrim, isOnError, isConsoleError, isQuery, isAttempt, isDelay, Nat.add_comm]

/-- When the attempts at indices `start ≤ i < start + j` all resolve
with `false` (each invoking the primitive once) and the attempt at index
`start + j` resolves with `true` (invoking the primitive once), a loop
of `n > j` iterations short-circuits at the success: it returns `true`
after exactly `j + 1` attempts and `j + 1` primitive invocations, with
no `onError` invocation. -/
theorem withRetryFrom_succeedsAt (thunk : Nat → ThunkOutcome × List Ev) (hoe : Bool) :
    ∀ (j start n : Nat), j < n →
      (∀ i, i < j → (thunk (start + i)).1 = .ret false ∧
        countEv isPrim (thunk (start + i)).2 = 1 ∧
        countEv isOnError (thunk (start + i)).2 = 0 ∧
        countEv isAttempt (thunk (start + i)).2 = 0) →
      ((thunk (start + j)).1 = .ret true ∧
        countEv isPrim (thunk (start + j)).2 = 1 ∧
        countEv isOnError (thunk (start + j)).2 = 0 ∧
        countEv isAttempt (thunk (start + j)).2 = 0) →
      (withRetryFrom thunk hoe start n).1 = true ∧
      countEv isPrim (withRetryFrom thunk hoe start n).2 = j + 1 ∧
      countEv isAttempt (withRetryFrom thunk hoe start n).2 = j + 1 ∧
      countEv isOnError (withRetryFrom thunk hoe start n).2 = 0 := by
  intro j
  induction j with
  | zero =>
      intro start n hn hf hs
      obtain ⟨n, rfl⟩ : ∃ m, n = m + 1 := ⟨n - 1, by omega⟩
      obtain ⟨h1, h2, h3, h4⟩ := hs
      rcases he : thunk (start + 0) with ⟨b, tr⟩
      rw [he] at h1 h2 h3 h4
      simp only at h1 h2 h3 h4
      subst h1
      rw [Nat.add_zero] at he
      simp only [withRetryFrom, he]
      simp [countEv_cons, h2, h3, h4, isPrim, isOnError, isAttempt]
  | succ j ih =>
      intro start n hn hf hs
      obtain ⟨n, rfl⟩ : ∃ m, n = m + 1 := ⟨n - 1, by omega⟩
      obtain ⟨h1, h2, h3, h4⟩ := hf 0 (Nat.succ_pos j)
      rcases he : thunk (start + 0) with ⟨b, tr⟩
      rw [he] at h1 h2 h3 h4
      simp only at h1 h2 h3 h4
      subst h1
      rw [Nat.add_zero] at he
      have hf' : ∀ i, i < j → (thunk (start + 1 + i)).1 = .ret false ∧
          countEv isPrim (thunk (start + 1 + i)).2 = 1 ∧
          countEv isOnError (thunk (start + 1 + i)).2 = 0 ∧
          countEv isAttempt (thunk (start + 1 + i)).2 = 0 := by
        intro i hi
        have := hf (i + 1) (by omega)
        rwa [show start + (i + 1) = start + 1 + i by omega] at this
      have hs' : (thunk (start + 1 + j)).1 = .ret true ∧
          countEv isPrim (thunk (start + 1 + j)).2 = 1 ∧
          countEv isOnError (thunk (start + 1 + j)).2 = 0 ∧
          countEv isAttempt (thunk (start + 1 + j)).2 = 0 := by
        rwa [show start + 1 + j = start + (j + 1) by omega]
      obtain ⟨g1, g2, g3, g4⟩ := ih (start + 1) n (by omega) hf' hs'
      simp only [withRetryFrom, he]
      refine ⟨g1, ?_, ?_, ?_⟩ <;>
        simp [countEv_append, countEv_cons, h2, h3, h4, g2, g3, g4,
          isPrim, isOnError, isAttempt, Nat.add_comm]

/-- A single run of `findAndPerformActionByType` never waits, never
invokes the observer, and marks no attempt: its trace holds only query,
primitive and diagnostic events. -/
theorem findAndPerformActionByType_counts {α : Type} (h : Host α) (sel ty val : String) :
    countEv isDelay (findAndPerformActionByType h sel ty val).2 = 0 ∧
    countEv isOnError (findAndPerformActionByType h sel ty val).2 = 0 ∧
    countEv isAttempt (findAndPerformActionByType h sel ty val).2 = 0 := by
  rcases hg : generateActionByType ty val with e | act
  · rw [findAndPerformActionByType_thrown h sel ty val e hg]
    simp [countEv_nil]
  · rcases hq : h.query sel with _ | el
    · rw [findAndPerformActionByType_notFound h sel ty val act hg hq]
      simp [countEv_cons, countEv_nil, isDelay, isOnError, isAttempt]
    · rcases ha : h.apply el act with _ | e
      · rw [findAndPerformActionByType_ok h sel ty val act el hg hq ha]
        simp [countEv_cons, countEv_nil, isDelay, isOnError, isAttempt]
      · rw [findAndPerformActionByType_fault h sel ty val act el e hg hq ha]
        simp [countEv_cons, countEv_nil, isDelay, isOnError, isAttempt]

/-- When no attempt's thunk trace holds a delay event, neither does the
whole retry loop's trace: the loop itself never waits. -/
theorem withRetryFrom_noDelay (thunk : Nat → ThunkOutcome × List Ev) (hoe : Bool)
    (hth : ∀ i, countEv isDelay (thunk i).2 = 0) :
    ∀ start n, countEv isDelay (withRetryFrom thunk hoe start n).2 = 0 := by
  intro start n
  induction n generalizing start with
  | zero => simp [withRetryFrom, countEv_nil]
  | succ m ih =>
      have hd := hth start
      rcases he : thunk start with ⟨b, tr⟩
      rw [he] at hd
      simp only at hd
      rcases b with b | e
      · cases b
        · simp [withRetryFrom, he, countEv_append, countEv_cons, hd, ih (start + 1), isDelay]
        · simp [withRetryFrom, he, countEv_cons, hd, isDelay]
      · cases hoe <;>
          simp [withRetryFrom, he, countEv_append, countEv_cons, countEv_nil, hd,
            ih (start + 1), isDelay]

/-- Processing events that hold no click leaves the recorder's
first-click flag armed (input and focus handlers never touch it). -/
theorem recordEvents_noClick_flag (es : List RecEvent)
    (hnc : ∀ e ∈ es, e.isClick = false) :
    ∀ r : VisualRecorder, r.isFirstClick = true →
      (r.recordEvents es).isFirstClick = true := by
  induction es with
  | nil => intro r hr; simpa [VisualRecorder.recordEvents]
  | cons e es ih =>
      intro r hr
      have he := hnc e (List.mem_cons_self e es)
      have hes : ∀ x ∈ es, x.isClick = false := fun x hx => hnc x (List.mem_cons_of_mem e hx)
      rcases e with el | el | el
      · simp [RecEvent.isClick] at he
      · simpa [VisualRecorder.recordEvents, VisualRecorder.step, VisualRecorder.handleInput]
          using ih hes _ (by simpa [VisualRecorder.handleInput] using hr)
      · simpa [VisualRecorder.recordEvents, VisualRecorder.step, VisualRecorder.handleFocus]
          using ih hes _ (by simpa [VisualRecorder.handleFocus] using hr)

/-- Every config the recorder appends, from any starting state whose
recorded configs already carry the hardcoded policy, carries
`waitBefore = 200` and `retries = 2`. -/
theorem recordEvents_policy (es : List RecEvent) :
    ∀ r : VisualRecorder,
      (∀ cfg ∈ r.recordedConfig, cfg.waitBefore = some 200 ∧ cfg.retries = some 2) →
      ∀ cfg ∈ (r.recordEvents es).recordedConfig,
        cfg.waitBefore = some 200 ∧ cfg.retries = some 2 := by
  induction es with
  | nil => intro r hr; simpa [VisualRecorder.recordEvents] using hr
  | cons e es ih =>
      intro r hr
      rcases e with el | el | el
      · refine ih _ ?_
        by_cases hf : r.isFirstClick = true
        · simpa [VisualRecorder.step, VisualRecorder.handleClick, hf] using hr
        · intro cfg hcfg
          simp only [VisualRecorder.step, VisualRecorder.handleClick, hf] at hcfg
          rcases List.mem_append.mp hcfg with hcfg | hcfg
          · exact hr cfg hcfg
          · rw [List.mem_singleton.mp hcfg]; exact ⟨rfl, rfl⟩
      · refine ih _ ?_
        intro cfg hcfg
        simp only [VisualRecorder.step, VisualRecorder.handleInput] at hcfg
        rcases List.mem_append.mp hcfg with hcfg | hcfg
        · exact hr cfg hcfg
        · rw [List.mem_singleton.mp hcfg]; exact ⟨rfl, rfl⟩
      · refine ih _ ?_
        intro cfg hcfg
        simp only [VisualRecorder.step, VisualRecorder.handleFocus] at hcfg
        rcases List.mem_append.mp hcfg with hcfg | hcfg
        · exact hr cfg hcfg
        · rw [List.mem_singleton.mp hcfg]; exact ⟨rfl, rfl⟩

/-- Claim C10: invoking the retry wrapper with a negative retries count
performs zero attempts — the thunk and the observer are never invoked
(the trace is empty) — and returns `false`, because the loop guard
`i <= retries` fails immediately. -/
theorem C10_negative_retries (thunk : Nat → ThunkOutcome × List Ev) (hoe : Bool)
    (retries : Int) (hneg : retries < 0) :
    (withRetry thunk retries hoe).1 = false ∧
    countEv isAttempt (withRetry thunk retries hoe).2 = 0 ∧
    countEv isOnError (withRetry thunk retries hoe).2 = 0 ∧
    (withRetry thunk retries hoe).2 = [] := by
  simp [withRetry, if_pos hneg, withRetryFrom, countEv_nil]

theorem C10_negative_retries_witness :
    (withRetry (fun _ => (ThunkOutcome.ret true, ([] : List Ev))) (-1) true).1 = false ∧
    countEv isAttempt (withRetry (fun _ => (ThunkOutcome.ret true, ([] : List Ev))) (-1) true).2 = 0 ∧
    countEv isOnError (withRetry (fun _ => (ThunkOutcome.ret true, ([] : List Ev))) (-1) true).2 = 0 ∧
    (withRetry (fun _ => (ThunkOutcome.ret true, ([] : List Ev))) (-1) true).2 = [] :=
  C10_negative_retries (fun _ => (ThunkOutcome.ret true, [])) true (-1) (by decide)

/-- Claim C8: a descriptor with a missing optional field executes
identically to the same descriptor with that field set to its documented
default (`value = ""`, `waitBefore = 0`, `retries = 0`); an absent
`onError` field is an absent observer. -/
theorem C8_missing_fields_are_defaults {α : Type} (h : Nat → Host α) (cfg : ElementConfig) :
    performActionByConfig h { cfg with value := none } =
      performActionByConfig h { cfg with value := some "" } ∧
    performActionByConfig h { cfg with waitBefore := none } =
      performActionByConfig h { cfg with waitBefore := some 0 } ∧
    performActionByConfig h { cfg with retries := none } =
      performActionByConfig h { cfg with retries := some 0 } :=
  ⟨rfl, rfl, rfl⟩

/-- Claim C5: the batch runner returns one boolean per input descriptor,
index-aligned: the result list has the input's length and its `i`-th
element is exactly the outcome `performActionByConfig` produces for the
`i`-th descriptor in isolation; being a total function into `List Bool`,
it never raises — a descriptor's failure lands in its slot. -/
theorem C5_batch_indexwise {α : Type} (h : Nat → Host α) (configs : List ElementConfig) :
    (performActionsByConfigs h configs).length = configs.length ∧
    ∀ i, (hi : i < configs.length) →
      (performActionsByConfigs h configs)[i]? =
        some (performActionByConfig h (configs.get ⟨i, hi⟩)).1 := by
  constructor
  · simp [performActionsByConfigs]
  · intro i hi
    simp [performActionsByConfigs, List.getElem?_map, List.getElem?_eq_getElem hi,
      List.get_eq_getElem]

theorem C5_batch_indexwise_witness :
    (performActionsByConfigs (fun _ => Host.mk (fun _ => (none : Option Nat)) (fun _ _ => .ok))
      [{ selector := "#a", type := "click" }, { selector := "#b", type := "focus" }]).length = 2 ∧
    (performActionsByConfigs (fun _ => Host.mk (fun _ => (none : Option Nat)) (fun _ _ => .ok))
      [{ selector := "#a", type := "click" }, { selector := "#b", type := "focus" }])[1]? =
      some (performActionByConfig
        (fun _ => Host.mk (fun _ => (none : Option Nat)) (fun _ _ => .ok))
        { selector := "#b", type := "focus" }).1 := by
  refine ⟨(C5_batch_indexwise _ _).1, ?_⟩
  exact (C5_batch_indexwise (fun _ => Host.mk (fun _ => (none : Option Nat)) (fun _ _ => .ok))
    [{ selector := "#a", type := "click" }, { selector := "#b", type := "focus" }]).2 1
    (by decide)

/-- Claim C6: the single-action executor is total (it returns a boolean,
never letting a fault escape): it returns `false` when the locator
resolves to no element; when the element is found and the action faults,
it intercepts the fault, reports it once on the diagnostic channel
(`console.error`), and returns `false`; when the action returns
normally it returns `true`. -/
theorem C6_executor_contract {α : Type} (h : Host α) (selector : String)
    (action : ElemAction) :
    (h.query selector = none → (findAndPerformAction h selector action).1 = false) ∧
    (∀ el e, h.query selector = some el → h.apply el action = .fault e →
      (findAndPerformAction h selector action).1 = false ∧
      countEv isConsoleError (findAndPerformAction h selector action).2 = 1) ∧
    (∀ el, h.query selector = some el → h.apply el action = .ok →
      (findAndPerformAction h selector action).1 = true) := by
  refine ⟨?_, ?_, ?_⟩
  · intro hq
    simp [findAndPerformAction, hq]
  · intro el e hq ha
    simp [findAndPerformAction, hq, ha, countEv_cons, countEv_nil, isConsoleError]
  · intro el hq ha
    simp [findAndPerformAction, hq, ha]

theorem C6_executor_contract_witness :
    (findAndPerformAction (Host.mk (fun _ => some 0) (fun _ _ => PrimResult.fault "boom"))
      "#a" ElemAction.click).1 = false ∧
    countEv isConsoleError
      (findAndPerformAction (Host.mk (fun _ => some 0) (fun _ _ => PrimResult.fault "boom"))
        "#a" ElemAction.click).2 = 1 :=
  (C6_executor_contract (Host.mk (fun _ => some 0) (fun _ _ => PrimResult.fault "boom"))
    "#a" ElemAction.click).2.1 0 "boom" rfl rfl

/-- Claim C4: for a descriptor (of a known kind, with `maxRetries = N`)
whose locator resolves to no element on any attempt, all `N + 1`
attempts run and each returns `false`, the overall result is `false`,
the `onError` observer is never invoked (not-found is not a fault), and
no primitive is ever invoked. -/
theorem C4_never_found {α : Type} (h : Nat → Host α) (cfg : ElementConfig)
    (act : ElemAction) (N : Nat)
    (hact : generateActionByType cfg.type (cfg.value.getD "") = .ok act)
    (hr : cfg.retries.getD 0 = (N : Int))
    (hnf : ∀ i, (h i).query cfg.selector = none) :
    (performActionByConfig h cfg).1 = false ∧
    countEv isAttempt (performActionByConfig h cfg).2 = N + 1 ∧
    countEv isOnError (performActionByConfig h cfg).2 = 0 ∧
    countEv isPrim (performActionByConfig h cfg).2 = 0 := by
  have hn : (if cfg.retries.getD 0 < 0 then 0 else (cfg.retries.getD 0).toNat + 1) = N + 1 := by
    rw [hr, if_neg (by omega : ¬ ((N : Int) < 0))]
    omega
  have hth : ∀ i,
      ((fun i => findAndPerformActionByType (h i) cfg.selector cfg.type (cfg.value.getD "")) i).1
        = .ret false ∧
      countEv isPrim ((fun i => findAndPerformActionByType (h i) cfg.selector cfg.type
        (cfg.value.getD "")) i).2 = 0 ∧
      countEv isOnError ((fun i => findAndPerformActionByType (h i) cfg.selector cfg.type
        (cfg.value.getD "")) i).2 = 0 ∧
      countEv isConsoleError ((fun i => findAndPerformActionByType (h i) cfg.selector cfg.type
        (cfg.value.getD "")) i).2 = 0 ∧
      countEv isQuery ((fun i => findAndPerformActionByType (h i) cfg.selector cfg.type
        (cfg.value.getD "")) i).2 = 1 ∧
      countEv isAttempt ((fun i => findAndPerformActionByType (h i) cfg.selector cfg.type
        (cfg.value.getD "")) i).2 = 0 ∧
      countEv isDelay ((fun i => findAndPerformActionByType (h i) cfg.selector cfg.type
        (cfg.value.getD "")) i).2 = 0 := by
    intro i
    simp only
    rw [findAndPerformActionByType_notFound (h i) cfg.selector cfg.type (cfg.value.getD "")
      act hact (hnf i)]
    simp [countEv_cons, countEv_nil, isPrim, isOnError, isConsoleError, isQuery, isAttempt,
      isDelay]
  obtain ⟨g1, g2, g3, g4, g5, g6, g7⟩ :=
    withRetryFrom_allRetFalse
      (fun i => findAndPerformActionByType (h i) cfg.selector cfg.type (cfg.value.getD ""))
      cfg.onError 0 0 1 hth 0 (N + 1)
  simp only [performActionByConfig, withRetry, hn]
  refine ⟨g1, ?_, ?_, ?_⟩ <;>
    by_cases hw : 0 < cfg.waitBefore.getD 0 <;>
      simp [hw, countEv_append, countEv_cons, countEv_nil, isAttempt, isOnError, isPrim,
        isDelay, g2, g3, g6]

theorem C4_never_found_witness :
    (performActionByConfig (fun _ => Host.mk (fun _ => (none : Option Nat)) (fun _ _ => .ok))
      { selector := "#x", type := "focus", retries := some 2, onError := true }).1 = false ∧
    countEv isAttempt (performActionByConfig
      (fun _ => Host.mk (fun _ => (none : Option Nat)) (fun _ _ => .ok))
      { selector := "#x", type := "focus", retries := some 2, onError := true }).2 = 2 + 1 ∧
    countEv isOnError (performActionByConfig
      (fun _ => Host.mk (fun _ => (none : Option Nat)) (fun _ _ => .ok))
      { selector := "#x", type := "focus", retries := some 2, onError := true }).2 = 0 ∧
    countEv isPrim (performActionByConfig
      (fun _ => Host.mk (fun _ => (none : Option Nat)) (fun _ _ => .ok))
      { selector := "#x", type := "focus", retries := some 2, onError := true }).2 = 0 :=
  C4_never_found (fun _ => Host.mk (fun _ => (none : Option Nat)) (fun _ _ => .ok))
    { selector := "#x", type := "focus", retries := some 2, onError := true }
    ElemAction.focus 2 rfl (by decide) (fun _ => rfl)

/-- Claim C2 counterexample: a descriptor with `maxRetries = 0`, an
observer, a target found on every attempt and a primitive that faults on
every attempt: the primitive is invoked `N + 1 = 1` time and the result
is `false`, as the claim says, but the `onError` observer is invoked `0`
times, not `N + 1 = 1` — `findAndPerformAction` catches the fault itself
and resolves with `false`, so no error ever reaches `withRetry`'s
observer. -/
theorem C2_counterexample :
    (performActionByConfig
      (fun _ => Host.mk (fun _ => some 0) (fun _ _ => PrimResult.fault "boom"))
      { selector := "#a", type := "click", retries := some 0, onError := true }).1 = false ∧
    countEv isPrim (performActionByConfig
      (fun _ => Host.mk (fun _ => some 0) (fun _ _ => PrimResult.fault "boom"))
      { selector := "#a", type := "click", retries := some 0, onError := true }).2 = 1 ∧
    countEv isOnError (performActionByConfig
      (fun _ => Host.mk (fun _ => some 0) (fun _ _ => PrimResult.fault "boom"))
      { selector := "#a", type := "click", retries := some 0, onError := true }).2 = 0 ∧
    countEv isOnError (performActionByConfig
      (fun _ => Host.mk (fun _ => some 0) (fun _ _ => PrimResult.fault "boom"))
      { selector := "#a", type := "click", retries := some 0, onError := true }).2 ≠ 0 + 1 := by
  decide

/-- Claim C2 as amended: for a descriptor with `maxRetries = N` whose
target resolves on every attempt and whose primitive faults on every
attempt, the primitive is invoked exactly `N + 1` times across `N + 1`
attempts and the final result is `false`; the `onError` observer is
never invoked — each fault is intercepted inside `findAndPerformAction`
and reported on the diagnostic channel (`console.error`, once per
attempt, `N + 1` times in total) instead. -/
theorem C2_always_faults {α : Type} (h : Nat → Host α) (cfg : ElementConfig)
    (act : ElemAction) (N : Nat)
    (hact : generateActionByType cfg.type (cfg.value.getD "") = .ok act)
    (hr : cfg.retries.getD 0 = (N : Int))
    (hfound : ∀ i, ∃ el, (h i).query cfg.selector = some el)
    (hfault : ∀ i el, (h i).query cfg.selector = some el →
      ∃ e, (h i).apply el act = .fault e) :
    (performActionByConfig h cfg).1 = false ∧
    countEv isPrim (performActionByConfig h cfg).2 = N + 1 ∧
    countEv isAttempt (performActionByConfig h cfg).2 = N + 1 ∧
    countEv isOnError (performActionByConfig h cfg).2 = 0 ∧
    countEv isConsoleError (performActionByConfig h cfg).2 = N + 1 := by
  have hn : (if cfg.retries.getD 0 < 0 then 0 else (cfg.retries.getD 0).toNat + 1) = N + 1 := by
    rw [hr, if_neg (by omega : ¬ ((N : Int) < 0))]
    omega
  have hth : ∀ i,
      ((fun i => findAndPerformActionByType (h i) cfg.selector cfg.type (cfg.value.getD "")) i).1
        = .ret false ∧
      countEv isPrim ((fun i => findAndPerformActionByType (h i) cfg.selector cfg.type
        (cfg.value.getD "")) i).2 = 1 ∧
      countEv isOnError ((fun i => findAndPerformActionByType (h i) cfg.selector cfg.type
        (cfg.value.getD "")) i).2 = 0 ∧
      countEv isConsoleError ((fun i => findAndPerformActionByType (h i) cfg.selector cfg.type
        (cfg.value.getD "")) i).2 = 1 ∧
      countEv isQuery ((fun i => findAndPerformActionByType (h i) cfg.selector cfg.type
        (cfg.value.getD "")) i).2 = 1 ∧
      countEv isAttempt ((fun i => findAndPerformActionByType (h i) cfg.selector cfg.type
        (cfg.value.getD "")) i).2 = 0 ∧
      countEv isDelay ((fun i => findAndPerformActionByType (h i) cfg.selector cfg.type
        (cfg.value.getD "")) i).2 = 0 := by
    intro i
    obtain ⟨el, hel⟩ := hfound i
    obtain ⟨e, he⟩ := hfault i el hel
    simp only
    rw [findAndPerformActionByType_fault (h i) cfg.selector cfg.type (cfg.value.getD "")
      act el e hact hel he]
    simp [countEv_cons, countEv_nil, isPrim, isOnError, isConsoleError, isQuery, isAttempt,
      isDelay]
  obtain ⟨g1, g2, g3, g4, g5, g6, g7⟩ :=
    withRetryFrom_allRetFalse
      (fun i => findAndPerformActionByType (h i) cfg.selector cfg.type (cfg.value.getD ""))
      cfg.onError 1 1 1 hth 0 (N + 1)
  simp only [performActionByConfig, withRetry, hn]
  refine ⟨g1, ?_, ?_, ?_, ?_⟩ <;>
    by_cases hw : 0 < cfg.waitBefore.getD 0 <;>
      simp [hw, countEv_append, countEv_cons, countEv_nil, isAttempt, isOnError, isPrim,
        isConsoleError, isDelay, g2, g3, g4, g6]

theorem C2_always_faults_witness :
    (performActionByConfig
      (fun _ => Host.mk (fun _ => some 0) (fun _ _ => PrimResult.fault "boom"))
      { selector := "#a", type := "click", retries := some 1, onError := true }).1 = false ∧
    countEv isPrim (performActionByConfig
      (fun _ => Host.mk (fun _ => some 0) (fun _ _ => PrimResult.fault "boom"))
      { selector := "#a", type := "click", retries := some 1, onError := true }).2 = 1 + 1 ∧
    countEv isAttempt (performActionByConfig
      (fun _ => Host.mk (fun _ => some 0) (fun _ _ => PrimResult.fault "boom"))
      { selector := "#a", type := "click", retries := some 1, onError := true }).2 = 1 + 1 ∧
    countEv isOnError (performActionByConfig
      (fun _ => Host.mk (fun _ => some 0) (fun _ _ => PrimResult.fault "boom"))
      { selector := "#a", type := "click", retries := some 1, onError := true }).2 = 0 ∧
    countEv isConsoleError (performActionByConfig
      (fun _ => Host.mk (fun _ => some 0) (fun _ _ => PrimResult.fault "boom"))
      { selector := "#a", type := "click", retries := some 1, onError := true }).2 = 1 + 1 :=
  C2_always_faults (fun _ => Host.mk (fun _ => some 0) (fun _ _ => PrimResult.fault "boom"))
    { selector := "#a", type := "click", retries := some 1, onError := true }
    ElemAction.click 1 rfl (by decide)
    (fun _ => ⟨0, rfl⟩) (fun _ el _ => ⟨"boom", rfl⟩)

/-- Claim C1 counterexample: a descriptor of unknown kind `"hover"` with
`maxRetries = 1` and an observer.  No primitive is ever invoked, but
processing is not aborted without retry: the build error is thrown
inside the retried thunk, so the loop runs `2` attempts (not `1`) and
hands the error to the `onError` observer twice, and the error never
escapes — the call resolves with `false` instead of failing loudly. -/
theorem C1_counterexample :
    countEv isAttempt (performActionByConfig
      (fun _ => Host.mk (fun _ => some 0) (fun _ _ => PrimResult.ok))
      { selector := "#a", type := "hover", retries := some 1, onError := true }).2 = 2 ∧
    countEv isAttempt (performActionByConfig
      (fun _ => Host.mk (fun _ => some 0) (fun _ _ => PrimResult.ok))
      { selector := "#a", type := "hover", retries := some 1, onError := true }).2 ≠ 1 ∧
    countEv isOnError (performActionByConfig
      (fun _ => Host.mk (fun _ => some 0) (fun _ _ => PrimResult.ok))
      { selector := "#a", type := "hover", retries := some 1, onError := true }).2 = 2 ∧
    countEv isPrim (performActionByConfig
      (fun _ => Host.mk (fun _ => some 0) (fun _ _ => PrimResult.ok))
      { selector := "#a", type := "hover", retries := some 1, onError := true }).2 = 0 ∧
    (performActionByConfig
      (fun _ => Host.mk (fun _ => some 0) (fun _ _ => PrimResult.ok))
      { selector := "#a", type := "hover", retries := some 1, onError := true }).1 = false := by
  decide

/-- Claim C1 as amended: for a descriptor whose kind is outside the
closed enumeration, action construction fails with the unsupported-type
error on every attempt and no primitive is ever invoked (nor any element
lookup); but the error does not abort processing: it is thrown inside
the retried thunk, so the retry loop catches it and re-attempts the
build on all `N + 1` attempts, invoking the `onError` observer with it
on each attempt when one is provided, and the call resolves with
`false` rather than propagating the error. -/
theorem C1_unknown_kind {α : Type} (h : Nat → Host α) (cfg : ElementConfig)
    (e : String) (N : Nat)
    (hbad : generateActionByType cfg.type (cfg.value.getD "") = .error e)
    (hr : cfg.retries.getD 0 = (N : Int)) :
    (performActionByConfig h cfg).1 = false ∧
    countEv isPrim (performActionByConfig h cfg).2 = 0 ∧
    countEv isQuery (performActionByConfig h cfg).2 = 0 ∧
    countEv isAttempt (performActionByConfig h cfg).2 = N + 1 ∧
    countEv isOnError (performActionByConfig h cfg).2 =
      (if cfg.onError then N + 1 else 0) := by
  have hn : (if cfg.retries.getD 0 < 0 then 0 else (cfg.retries.getD 0).toNat + 1) = N + 1 := by
    rw [hr, if_neg (by omega : ¬ ((N : Int) < 0))]
    omega
  have hth : ∀ i, ∃ e',
      (fun i => findAndPerformActionByType (h i) cfg.selector cfg.type (cfg.value.getD "")) i
        = (.thrown e', []) := by
    intro i
    exact ⟨e, findAndPerformActionByType_thrown (h i) cfg.selector cfg.type
      (cfg.value.getD "") e hbad⟩
  obtain ⟨g1, g2, g3, g4, g5, g6, g7⟩ :=
    withRetryFrom_allThrown
      (fun i => findAndPerformActionByType (h i) cfg.selector cfg.type (cfg.value.getD ""))
      cfg.onError hth 0 (N + 1)
  simp only [performActionByConfig, withRetry, hn]
  refine ⟨g1, ?_, ?_, ?_, ?_⟩ <;>
    by_cases hw : 0 < cfg.waitBefore.getD 0 <;>
      simp [hw, countEv_append, countEv_cons, countEv_nil, isAttempt, isOnError, isPrim,
        isQuery, isDelay, g2, g3, g5, g6]

theorem C1_unknown_kind_witness :
    (performActionByConfig
      (fun _ => Host.mk (fun _ => some 0) (fun _ _ => PrimResult.ok))
      { selector := "#a", type := "hover", retries := some 2, onError := true }).1 = false ∧
    countEv isPrim (performActionByConfig
      (fun _ => Host.mk (fun _ => some 0) (fun _ _ => PrimResult.ok))
      { selector := "#a", type := "hover", retries := some 2, onError := true }).2 = 0 ∧
    countEv isQuery (performActionByConfig
      (fun _ => Host.mk (fun _ => some 0) (fun _ _ => PrimResult.ok))
      { selector := "#a", type := "hover", retries := some 2, onError := true }).2 = 0 ∧
    countEv isAttempt (performActionByConfig
      (fun _ => Host.mk (fun _ => some 0) (fun _ _ => PrimResult.ok))
      { selector := "#a", type := "hover", retries := some 2, onError := true }).2 = 2 + 1 ∧
    countEv isOnError (performActionByConfig
      (fun _ => Host.mk (fun _ => some 0) (fun _ _ => PrimResult.ok))
      { selector := "#a", type := "hover", retries := some 2, onError := true }).2 =
      (if ({ selector := "#a", type := "hover", retries := some 2, onError := true }
        : ElementConfig).onError then 2 + 1 else 0) :=
  C1_unknown_kind (fun _ => Host.mk (fun _ => some 0) (fun _ _ => PrimResult.ok))
    { selector := "#a", type := "hover", retries := some 2, onError := true }
    ("不支持的操作类型: " ++ "hover") 2 rfl (by decide)

/-- Claim C3: for a descriptor with `maxRetries = N` whose single-action
execution first succeeds on attempt `k = j + 1 ≤ N + 1` (the target is
found on attempts `1..k`, the primitive faults on attempts `1..k-1` and
returns normally on attempt `k`), the primitive is invoked exactly `k`
times, the retry loop performs exactly `k` attempts (none after the
success), the overall result is `true`, and the observer is never
invoked. -/
theorem C3_success_short_circuits {α : Type} (h : Nat → Host α) (cfg : ElementConfig)
    (act : ElemAction) (N j : Nat)
    (hact : generateActionByType cfg.type (cfg.value.getD "") = .ok act)
    (hr : cfg.retries.getD 0 = (N : Int)) (hj : j ≤ N)
    (hfail : ∀ i, i < j → ∃ el e, (h i).query cfg.selector = some el ∧
      (h i).apply el act = .fault e)
    (hsucc : ∃ el, (h j).query cfg.selector = some el ∧ (h j).apply el act = .ok) :
    (performActionByConfig h cfg).1 = true ∧
    countEv isPrim (performActionByConfig h cfg).2 = j + 1 ∧
    countEv isAttempt (performActionByConfig h cfg).2 = j + 1 ∧
    countEv isOnError (performActionByConfig h cfg).2 = 0 := by
  have hn : (if cfg.retries.getD 0 < 0 then 0 else (cfg.retries.getD 0).toNat + 1) = N + 1 := by
    rw [hr, if_neg (by omega : ¬ ((N : Int) < 0))]
    omega
  have hf : ∀ i, i < j →
      ((fun i => findAndPerformActionByType (h i) cfg.selector cfg.type (cfg.value.getD ""))
        (0 + i)).1 = .ret false ∧
      countEv isPrim ((fun i => findAndPerformActionByType (h i) cfg.selector cfg.type
        (cfg.value.getD "")) (0 + i)).2 = 1 ∧
      countEv isOnError ((fun i => findAndPerformActionByType (h i) cfg.selector cfg.type
        (cfg.value.getD "")) (0 + i)).2 = 0 ∧
      countEv isAttempt ((fun i => findAndPerformActionByType (h i) cfg.selector cfg.type
        (cfg.value.getD "")) (0 + i)).2 = 0 := by
    intro i hi
    obtain ⟨el, e, hel, he⟩ := hfail i hi
    simp only [Nat.zero_add]
    rw [findAndPerformActionByType_fault (h i) cfg.selector cfg.type (cfg.value.getD "")
      act el e hact hel he]
    simp [countEv_cons, countEv_nil, isPrim, isOnError, isAttempt]
  have hs :
      ((fun i => findAndPerformActionByType (h i) cfg.selector cfg.type (cfg.value.getD ""))
        (0 + j)).1 = .ret true ∧
      countEv isPrim ((fun i => findAndPerformActionByType (h i) cfg.selector cfg.type
        (cfg.value.getD "")) (0 + j)).2 = 1 ∧
      countEv isOnError ((fun i => findAndPerformActionByType (h i) cfg.selector cfg.type
        (cfg.value.getD "")) (0 + j)).2 = 0 ∧
      countEv isAttempt ((fun i => findAndPerformActionByType (h i) cfg.selector cfg.type
        (cfg.value.getD "")) (0 + j)).2 = 0 := by
    obtain ⟨el, hel, hok⟩ := hsucc
    simp only [Nat.zero_add]
    rw [findAndPerformActionByType_ok (h j) cfg.selector cfg.type (cfg.value.getD "")
      act el hact hel hok]
    simp [countEv_cons, countEv_nil, isPrim, isOnError, isAttempt]
  obtain ⟨g1, g2, g3, g4⟩ :=
    withRetryFrom_succeedsAt
      (fun i => findAndPerformActionByType (h i) cfg.selector cfg.type (cfg.value.getD ""))
      cfg.onError j 0 (N + 1) (by omega) hf hs
  simp only [performActionByConfig, withRetry, hn]
  refine ⟨g1, ?_, ?_, ?_⟩ <;>
    by_cases hw : 0 < cfg.waitBefore.getD 0 <;>
      simp [hw, countEv_append, countEv_cons, countEv_nil, isAttempt, isOnError, isPrim,
        isDelay, g2, g3, g4]

theorem C3_success_short_circuits_witness :
    (performActionByConfig
      (fun i => if i = 0 then Host.mk (fun _ => some 0) (fun _ _ => PrimResult.fault "x")
        else Host.mk (fun _ => some 0) (fun _ _ => PrimResult.ok))
      { selector := "#a", type := "click", retries := some 1, onError := true }).1 = true ∧
    countEv isPrim (performActionByConfig
      (fun i => if i = 0 then Host.mk (fun _ => some 0) (fun _ _ => PrimResult.fault "x")
        else Host.mk (fun _ => some 0) (fun _ _ => PrimResult.ok))
      { selector := "#a", type := "click", retries := some 1, onError := true }).2 = 1 + 1 ∧
    countEv isAttempt (performActionByConfig
      (fun i => if i = 0 then Host.mk (fun _ => some 0) (fun _ _ => PrimResult.fault "x")
        else Host.mk (fun _ => some 0) (fun _ _ => PrimResult.ok))
      { selector := "#a", type := "click", retries := some 1, onError := true }).2 = 1 + 1 ∧
    countEv isOnError (performActionByConfig
      (fun i => if i = 0 then Host.mk (fun _ => some 0) (fun _ _ => PrimResult.fault "x")
        else Host.mk (fun _ => some 0) (fun _ _ => PrimResult.ok))
      { selector := "#a", type := "click", retries := some 1, onError := true }).2 = 0 :=
  C3_success_short_circuits
    (fun i => if i = 0 then Host.mk (fun _ => some 0) (fun _ _ => PrimResult.fault "x")
      else Host.mk (fun _ => some 0) (fun _ _ => PrimResult.ok))
    { selector := "#a", type := "click", retries := some 1, onError := true }
    ElemAction.click 1 1 rfl (by decide) (by decide)
    (fun i hi => by
      rw [Nat.lt_one_iff.mp hi]
      exact ⟨0, "x", rfl, rfl⟩)
    ⟨0, rfl, rfl⟩

/-- Claim C7: when `waitBefore` is configured positive, the execution
trace starts with exactly one delay event — the wait elapses once,
before the first attempt — and the rest of the trace (the whole retry
loop) holds no delay event, so no wait ever occurs between retries;
when `waitBefore` is `0` (the default, `≤ 0` in general) no delay
occurs at all. -/
theorem C7_delay_once_before_retries {α : Type} (h : Nat → Host α) (cfg : ElementConfig) :
    (0 < cfg.waitBefore.getD 0 →
      ∃ rest, (performActionByConfig h cfg).2 = .delay (cfg.waitBefore.getD 0) :: rest ∧
        countEv isDelay rest = 0) ∧
    (cfg.waitBefore.getD 0 ≤ 0 →
      countEv isDelay (performActionByConfig h cfg).2 = 0) := by
  have hnd : countEv isDelay
      (withRetry (fun i => findAndPerformActionByType (h i) cfg.selector cfg.type
        (cfg.value.getD "")) (cfg.retries.getD 0) cfg.onError).2 = 0 := by
    unfold withRetry
    exact withRetryFrom_noDelay _ _
      (fun i => (findAndPerformActionByType_counts (h i) cfg.selector cfg.type
        (cfg.value.getD "")).1) 0 _
  constructor
  · intro hw
    refine ⟨_, ?_, hnd⟩
    simp only [performActionByConfig, if_pos hw]
    rfl
  · intro hw
    simp only [performActionByConfig, if_neg (by omega : ¬ 0 < cfg.waitBefore.getD 0)]
    simpa [countEv_append, countEv_nil] using hnd

theorem C7_delay_once_before_retries_witness :
    (∃ rest, (performActionByConfig
        (fun _ => Host.mk (fun _ => (none : Option Nat)) (fun _ _ => .ok))
        { selector := "#a", type := "click", waitBefore := some 5 }).2 =
          .delay (((some (5 : Int)).getD 0)) :: rest ∧
      countEv isDelay rest = 0) ∧
    countEv isDelay (performActionByConfig
      (fun _ => Host.mk (fun _ => (none : Option Nat)) (fun _ _ => .ok))
      { selector := "#a", type := "click" }).2 = 0 :=
  ⟨(C7_delay_once_before_retries
      (fun _ => Host.mk (fun _ => (none : Option Nat)) (fun _ _ => .ok))
      { selector := "#a", type := "click", waitBefore := some 5 }).1 (by decide),
   (C7_delay_once_before_retries
      (fun _ => Host.mk (fun _ => (none : Option Nat)) (fun _ _ => .ok))
      { selector := "#a", type := "click" }).2 (by decide)⟩

/-- Claim C9: starting from a freshly armed recorder, the first observed
click event appends no descriptor (it only clears the first-click flag:
processing any click-free event prefix and then one click leaves the
recorded list unchanged), and every descriptor the recorder ever appends
— from click, input or focus events alike — carries the hardcoded policy
fields `waitBefore = 200` and `retries = 2`. -/
theorem C9_recorder_first_click_and_policy (es : List RecEvent) (el : RecElem)
    (hnc : ∀ e ∈ es, e.isClick = false) :
    (VisualRecorder.init.recordEvents (es ++ [.click el])).recordedConfig =
      (VisualRecorder.init.recordEvents es).recordedConfig ∧
    ∀ es2 : List RecEvent, ∀ cfg ∈ (VisualRecorder.init.recordEvents es2).recordedConfig,
      cfg.waitBefore = some 200 ∧ cfg.retries = some 2 := by
  constructor
  · have hflag : (VisualRecorder.init.recordEvents es).isFirstClick = true :=
      recordEvents_noClick_flag es hnc _ rfl
    simp only [VisualRecorder.recordEvents, List.foldl_append, List.foldl_cons,
      List.foldl_nil]
    simp only [VisualRecorder.recordEvents] at hflag
    simp [VisualRecorder.step, VisualRecorder.handleClick, hflag]
  · intro es2
    exact recordEvents_policy es2 VisualRecorder.init
      (by
        intro cfg hcfg
        simp [VisualRecorder.init] at hcfg)

theorem C9_recorder_first_click_and_policy_witness :
    (VisualRecorder.init.recordEvents
      ([RecEvent.input ⟨"u", "x"⟩] ++ [.click ⟨"btn", ""⟩])).recordedConfig =
      (VisualRecorder.init.recordEvents [RecEvent.input ⟨"u", "x"⟩]).recordedConfig ∧
    ∀ es2 : List RecEvent, ∀ cfg ∈ (VisualRecorder.init.recordEvents es2).recordedConfig,
      cfg.waitBefore = some 200 ∧ cfg.retries = some 2 :=
  C9_recorder_first_click_and_policy [RecEvent.input ⟨"u", "x"⟩] ⟨"btn", ""⟩
    (by decide)
